import Mathlib

/-!
Verification development for the 2-point RANSAC core of R-VIO
(src/include/rvio/Ransac.h).  The repository ships only the header:
the `RansacModel` default constructor is inline source code, while the
bodies of `Ransac::SetPointSet`, `Ransac::SetRansacModel`,
`Ransac::CountInliers`, `Ransac::FindInliers`, `Ransac::SampsonError`
and `Ransac::AlgebraicError` live in a translation unit that is not in
the tree.  Those are modelled from the specification, as marked on each
definition.  Scalars are rationals; Eigen fixed-size vectors and
matrices become explicit records; the injectable random source is a
function from a draw counter and a range to a natural number.
-/

namespace RVIO

/-- A 3-vector with rational entries (`Eigen::Vector3d`). -/
structure Vec3 where
  x : ℚ
  y : ℚ
  z : ℚ
deriving DecidableEq, Repr

/-- The zero 3-vector. -/
def Vec3.zero : Vec3 := ⟨0, 0, 0⟩

/-- Dot product of two 3-vectors. -/
def Vec3.dot (a b : Vec3) : ℚ := a.x * b.x + a.y * b.y + a.z * b.z

/-- Cross product of two 3-vectors. -/
def Vec3.cross (a b : Vec3) : Vec3 :=
  ⟨a.y * b.z - a.z * b.y, a.z * b.x - a.x * b.z, a.x * b.y - a.y * b.x⟩

/-- A 3×3 matrix with rational entries (`Eigen::Matrix3d`), stored by rows. -/
structure Mat3 where
  r0 : Vec3
  r1 : Vec3
  r2 : Vec3
deriving DecidableEq, Repr

/-- The zero 3×3 matrix. -/
def Mat3.zero : Mat3 := ⟨Vec3.zero, Vec3.zero, Vec3.zero⟩

/-- Matrix-vector product. -/
def Mat3.mulVec (M : Mat3) (v : Vec3) : Vec3 := ⟨M.r0.dot v, M.r1.dot v, M.r2.dot v⟩

/-- Matrix transpose. -/
def Mat3.transpose (M : Mat3) : Mat3 :=
  ⟨⟨M.r0.x, M.r1.x, M.r2.x⟩, ⟨M.r0.y, M.r1.y, M.r2.y⟩, ⟨M.r0.z, M.r1.z, M.r2.z⟩⟩

/-- Entrywise negation of a 3×3 matrix. -/
def Mat3.neg (M : Mat3) : Mat3 :=
  ⟨⟨-M.r0.x, -M.r0.y, -M.r0.z⟩, ⟨-M.r1.x, -M.r1.y, -M.r1.z⟩, ⟨-M.r2.x, -M.r2.y, -M.r2.z⟩⟩

/-- The skew-symmetric (cross-product) matrix of a 3-vector. -/
def skew (t : Vec3) : Mat3 :=
  ⟨⟨0, -t.z, t.y⟩, ⟨t.z, 0, -t.x⟩, ⟨-t.y, t.x, 0⟩⟩

/-- Modelled from the spec: the body of `Ransac::AlgebraicError` is not in
src/.  The algebraic error is the squared epipolar residual
`(p2ᵗ·E·p1)²`. -/
def AlgebraicError (pt1 pt2 : Vec3) (E : Mat3) : ℚ :=
  (pt2.dot (E.mulVec pt1)) ^ 2

/-- The large finite sentinel returned by the Sampson metric when its
denominator vanishes (spec: a large-but-finite error value, never a
division fault). -/
def sampsonSentinel : ℚ := 10 ^ 12

/-- Modelled from the spec: the body of `Ransac::SampsonError` is not in
src/.  The Sampson error divides the squared epipolar residual by the
squared norms of the first two components of `E·p1` and of `Eᵗ·p2`;
when that denominator is zero (the rational model of the near-zero
guard) the result is the large finite sentinel instead of a division. -/
def SampsonError (pt1 pt2 : Vec3) (E : Mat3) : ℚ :=
  let Ep1 := E.mulVec pt1
  let Etp2 := E.transpose.mulVec pt2
  let den := Ep1.x ^ 2 + Ep1.y ^ 2 + Etp2.x ^ 2 + Etp2.y ^ 2
  if den = 0 then sampsonSentinel else (pt2.dot Ep1) ^ 2 / den

/-- An exact representation of a real 3×3 matrix of the form
`mat / √sq`: the stored hypothesis matrices are real matrices whose
nine entries are rational multiples of one common inverse square root,
so every error value and threshold comparison the estimator performs
on them is exact rational arithmetic. -/
structure ScaledMat3 where
  mat : Mat3
  sq : ℚ
deriving DecidableEq, Repr

/-- The representation of the zero matrix (`0 / √1`). -/
def ScaledMat3.zero : ScaledMat3 := ⟨Mat3.zero, 1⟩

/-- The squared Frobenius norm of a 3×3 matrix. -/
def Mat3.frobSq (M : Mat3) : ℚ :=
  M.r0.x ^ 2 + M.r0.y ^ 2 + M.r0.z ^ 2 +
  M.r1.x ^ 2 + M.r1.y ^ 2 + M.r1.z ^ 2 +
  M.r2.x ^ 2 + M.r2.y ^ 2 + M.r2.z ^ 2

/-- The algebraic error against the real matrix represented by `E`:
`(p2ᵗ·(mat/√sq)·p1)²` equals the unscaled squared residual divided by
`sq`.  For the degenerate representation `sq = 0` (which the estimator
only produces together with `mat = 0`) the rational division yields
zero, matching the zero residual of the zero matrix. -/
def AlgebraicErrorScaled (pt1 pt2 : Vec3) (E : ScaledMat3) : ℚ :=
  AlgebraicError pt1 pt2 E.mat / E.sq

/-- The Sampson error against the real matrix represented by `E`:
numerator and denominator of the Sampson ratio both scale by `1/sq`,
so for `sq ≠ 0` the ratio and the zero-denominator test agree with the
unscaled ones; a degenerate representation (`sq = 0`) has a vanishing
denominator and yields the sentinel. -/
def SampsonErrorScaled (pt1 pt2 : Vec3) (E : ScaledMat3) : ℚ :=
  if E.sq = 0 then sampsonSentinel else SampsonError pt1 pt2 E.mat

/-- The per-trial data aggregate `RansacModel` (Ransac.h, lines 40-56).
The source stores the hypotheses as one stacked `(nIterations*3)×3`
real matrix with trial `t` occupying rows `3t..3t+2`; the model keeps
one 3×3 block per trial, so `hypotheses.length` trials correspond to
`3 * hypotheses.length` stacked rows. -/
structure RansacModel where
  hypotheses : List ScaledMat3
  nInliers : List ℤ
  twoPoints : List (ℕ × ℕ)
  nIterations : ℕ
deriving DecidableEq, Repr

/-- The default constructor `RansacModel::RansacModel()` (Ransac.h, lines
49-55): it sets `nIterations = 16` and resizes `hypotheses` to
`(16*3)×3`, `nInliers` to `16×1` and `twoPoints` to `16×2`.  Eigen's
resize leaves entries uninitialized; the model fills them with zeros,
and no claim reads an entry before the trial loop writes it. -/
def RansacModel.init : RansacModel :=
  { hypotheses := List.replicate 16 ScaledMat3.zero
    nInliers := List.replicate 16 0
    twoPoints := List.replicate 16 (0, 0)
    nIterations := 16 }

/-- The estimator state (class `Ransac`, Ransac.h, lines 59-118). -/
structure Ransac where
  mbUseSampson : Bool
  mnInlierThreshold : ℚ
  mRansacModel : RansacModel
  mvInlierCandidateIndices : List ℕ
deriving DecidableEq, Repr

/-- The constructor `Ransac::Ransac(bool, double)`: fixes the metric
choice and the inlier threshold for the instance lifetime and owns a
freshly constructed `RansacModel`. -/
def Ransac.new (bUseSampson : Bool) (nInlierThreshold : ℚ) : Ransac :=
  { mbUseSampson := bUseSampson
    mnInlierThreshold := nInlierThreshold
    mRansacModel := RansacModel.init
    mvInlierCandidateIndices := [] }

/-- The error metric selected by the `useSampson` flag (spec 4.1: a
two-way choice between the two pure scoring functions). -/
def errSel (bUseSampson : Bool) (pt1 pt2 : Vec3) (E : ScaledMat3) : ℚ :=
  if bUseSampson then SampsonErrorScaled pt1 pt2 E else AlgebraicErrorScaled pt1 pt2 E

/-- The error metric selected at construction, fixed for the instance
lifetime, applied to a stored (scaled-representation) hypothesis. -/
def Ransac.errorOf (r : Ransac) (pt1 pt2 : Vec3) (E : ScaledMat3) : ℚ :=
  errSel r.mbUseSampson pt1 pt2 E

/-- The number of candidates in `cand` whose selected error against `E`
is below the threshold `θ` (the count stored by `CountInliers`). -/
def countFor (bUseSampson : Bool) (θ : ℚ) (cand : List ℕ) (Points1 Points2 : List Vec3)
    (E : ScaledMat3) : ℕ :=
  (cand.filter (fun i =>
      errSel bUseSampson (Points1.getD i Vec3.zero) (Points2.getD i Vec3.zero) E < θ)).length

/-- The injectable random source (spec 9: an interface with a single
next-index-in-range operation, deterministic under test): `rand k n`
is the k-th raw draw requested with range `n`; the model reduces it
modulo the range so any supplied source is total. -/
def Rand : Type := ℕ → ℕ → ℕ

/-- Modelled from the spec: the body of `Ransac::SetPointSet` is not in
src/.  For trial `nIterNum` it draws two distinct indices from
`[0, nInlierCandidates)` without replacement — a first uniform draw,
then a draw from a range one smaller, shifted past the first — maps
them through the current inlier-candidate index set, and stores the
resulting pair of correspondence indices into `twoPoints[nIterNum]`. -/
def SetPointSet (rand : Rand) (nInlierCandidates nIterNum : ℕ) (r : Ransac) : Ransac :=
  let m := nInlierCandidates
  let i1 := rand (2 * nIterNum) m % m
  let j := rand (2 * nIterNum + 1) (m - 1) % (m - 1)
  let i2 := if i1 ≤ j then j + 1 else j
  let idxA := r.mvInlierCandidateIndices.getD i1 0
  let idxB := r.mvInlierCandidateIndices.getD i2 0
  { r with mRansacModel :=
      { r.mRansacModel with
          twoPoints := r.mRansacModel.twoPoints.set nIterNum (idxA, idxB) } }

/-- Modelled from the spec: the body of `Ransac::SetRansacModel` is not
in src/.  Using only the two correspondences indexed by
`twoPoints[nIterNum]`, it rotates the frame-1 points by `R`, forms the
2×3 coefficient matrix of the epipolar constraints
`p2ᵗ·skew(t̂)·(R·p1) = 0` — whose row for a pair is
`(R·p1) × p2` — solves for the 1-dimensional null space, normalizes
the null vector to unit length, and stores
`hypotheses[nIterNum] = skew(t̂)` for the normalized `t̂`.  The exact
null-space direction is the cross product `d` of the two rows; the
normalized matrix `skew(d)/‖d‖ = skew(d/‖d‖)` is stored exactly as the
scaled representation `⟨skew d, d·d⟩` (a matrix divided by the square
root of `d·d`).  The spec's SVD leaves only the sign of `t̂` free, and
the error metrics are sign-invariant. -/
def SetRansacModel (Points1 Points2 : List Vec3) (R : Mat3) (nIterNum : ℕ)
    (r : Ransac) : Ransac :=
  let pr := r.mRansacModel.twoPoints.getD nIterNum (0, 0)
  let qA := R.mulVec (Points1.getD pr.1 Vec3.zero)
  let qB := R.mulVec (Points1.getD pr.2 Vec3.zero)
  let rowA := Vec3.cross qA (Points2.getD pr.1 Vec3.zero)
  let rowB := Vec3.cross qB (Points2.getD pr.2 Vec3.zero)
  let that := Vec3.cross rowA rowB
  { r with mRansacModel :=
      { r.mRansacModel with
          hypotheses := r.mRansacModel.hypotheses.set nIterNum
            ⟨skew that, that.dot that⟩ } }

/-- Modelled from the spec: the body of `Ransac::CountInliers` is not in
src/.  It counts, over the current inlier-candidate index set only, the
correspondences whose selected error against `hypotheses[nIterNum]` is
below the inlier threshold, and stores the count into
`nInliers[nIterNum]`. -/
def CountInliers (Points1 Points2 : List Vec3) (nIterNum : ℕ) (r : Ransac) : Ransac :=
  let E := r.mRansacModel.hypotheses.getD nIterNum ScaledMat3.zero
  let c := countFor r.mbUseSampson r.mnInlierThreshold r.mvInlierCandidateIndices
      Points1 Points2 E
  { r with mRansacModel :=
      { r.mRansacModel with
          nInliers := r.mRansacModel.nInliers.set nIterNum (c : ℤ) } }

/-- The inlier-candidate index set built from a flag vector: the
positions, in increasing order, whose flag entry is non-zero
(spec 4.5, step 1). -/
def candidateIndices (vInlierFlag : List ℕ) : List ℕ :=
  (List.range vInlierFlag.length).filter (fun i => vInlierFlag.getD i 0 ≠ 0)

/-- The index of the first maximal entry of a list of inlier counts
(spec 4.5, step 4: maximum, ties broken by lowest trial index). -/
def argmaxIdx : List ℤ → ℕ
  | [] => 0
  | x :: xs => if x < xs.getD (argmaxIdx xs) x then argmaxIdx xs + 1 else 0

/-- One RANSAC trial (spec 4.5, step 3): sample, build the hypothesis,
count its inliers. -/
def trialStep (rand : Rand) (Points1 Points2 : List Vec3) (R : Mat3) (m : ℕ)
    (r : Ransac) (t : ℕ) : Ransac :=
  CountInliers Points1 Points2 t
    (SetRansacModel Points1 Points2 R t (SetPointSet rand m t r))

/-- The final full re-scoring pass of `FindInliers` (spec 4.5, step 5):
every entry whose flag is non-zero and whose selected error against the
winning hypothesis `E` exceeds the threshold is cleared; every other
entry is kept as it was. -/
def refineFlags (bUseSampson : Bool) (θ : ℚ) (Points1 Points2 : List Vec3) (E : ScaledMat3)
    (vInlierFlag : List ℕ) : List ℕ :=
  (List.range vInlierFlag.length).map (fun i =>
    if vInlierFlag.getD i 0 ≠ 0 ∧
        errSel bUseSampson (Points1.getD i Vec3.zero) (Points2.getD i Vec3.zero) E > θ
    then 0 else vInlierFlag.getD i 0)

/-- Modelled from the spec: the body of `Ransac::FindInliers` is not in
src/.  It builds the candidate index set from the non-zero flag
positions; fails fast with zero inliers, the flags untouched and no
draw from the random source when fewer than 2 candidates remain; runs
the per-trial loop for every trial in `[0, nIterations)`; selects the
first trial with the maximal inlier count; clears the flag of every
candidate whose error against the winning hypothesis exceeds the
threshold; and returns the winning trial's inlier count.  The result
is the returned count, the refined flag vector, and the estimator
state after the call. -/
def FindInliers (rand : Rand) (Points1 Points2 : List Vec3) (R : Mat3)
    (vInlierFlag : List ℕ) (r : Ransac) : ℤ × List ℕ × Ransac :=
  if (candidateIndices vInlierFlag).length < 2 then
    (0, vInlierFlag, { r with mvInlierCandidateIndices := candidateIndices vInlierFlag })
  else
    let r2 := (List.range r.mRansacModel.nIterations).foldl
        (trialStep rand Points1 Points2 R (candidateIndices vInlierFlag).length)
        { r with mvInlierCandidateIndices := candidateIndices vInlierFlag }
    (r2.mRansacModel.nInliers.getD (argmaxIdx r2.mRansacModel.nInliers) 0,
     refineFlags r2.mbUseSampson r2.mnInlierThreshold Points1 Points2
       (r2.mRansacModel.hypotheses.getD (argmaxIdx r2.mRansacModel.nInliers)
         ScaledMat3.zero)
       vInlierFlag,
     r2)

/-- The trial-loop state of a non-degenerate `FindInliers` call. -/
def loopState (rand : Rand) (Points1 Points2 : List Vec3) (R : Mat3)
    (vInlierFlag : List ℕ) (r : Ransac) : Ransac :=
  (List.range r.mRansacModel.nIterations).foldl
    (trialStep rand Points1 Points2 R (candidateIndices vInlierFlag).length)
    { r with mvInlierCandidateIndices := candidateIndices vInlierFlag }

/-! Concrete data for analysing repeated `FindInliers` calls: seven
correspondences under the identity rotation.  Their epipolar constraint
rows are (0,1,0), (0,1,1), (1/10,1,1), (0,2,0), ..., (0,5,0).  The pair
(0,1) yields the unit hypothesis direction (1,0,0), against which all
seven normalized errors are at most 1/100 — every candidate is kept at
threshold 1/5 and no flag is cleared.  The pair (1,2) yields the
direction (0,1,-1)/√2, against which points 0 and 3-6 score at least
1/2 — only the two sampled points remain inliers. -/

/-- Frame-1 points of the repeated-call scenario. -/
def cexP1 : List Vec3 :=
  [⟨0, 0, 1⟩, ⟨0, -1, 1⟩, ⟨0, -1, 1⟩, ⟨0, 0, 1⟩, ⟨0, 0, 1⟩, ⟨0, 0, 1⟩, ⟨0, 0, 1⟩]

/-- Frame-2 points of the repeated-call scenario. -/
def cexP2 : List Vec3 :=
  [⟨1, 0, 1⟩, ⟨1, -1, 1⟩, ⟨1, -11/10, 1⟩, ⟨2, 0, 1⟩, ⟨3, 0, 1⟩, ⟨4, 0, 1⟩,
   ⟨5, 0, 1⟩]

/-- The identity rotation hint. -/
def cexR : Mat3 := ⟨⟨1, 0, 0⟩, ⟨0, 1, 0⟩, ⟨0, 0, 1⟩⟩

/-- All seven correspondences initially accepted by tracking. -/
def cexFlags : List ℕ := [1, 1, 1, 1, 1, 1, 1]

/-- The estimator under test: algebraic metric, threshold 1/5. -/
def cexRansac : Ransac := Ransac.new false (1/5)

/-- A random source that always answers 0: every trial samples the
candidate pair at positions (0, 1). -/
def cexRand1 : Rand := fun _ _ => 0

/-- A random source that always answers 1: every trial samples the
candidate pair at positions (1, 2). -/
def cexRand2 : Rand := fun _ _ => 1

/-- The estimator state after the first call of the repeated-call
scenario: every trial sampled the pair (0, 1), producing the same unit
hypothesis direction (1, 0, 0) and a count of 7. -/
def cexState1 : Ransac :=
  { mbUseSampson := false
    mnInlierThreshold := 1/5
    mRansacModel :=
      { hypotheses := List.replicate 16 ⟨skew ⟨1, 0, 0⟩, 1⟩
        nInliers := List.replicate 16 7
        twoPoints := List.replicate 16 (0, 1)
        nIterations := 16 }
    mvInlierCandidateIndices := [0, 1, 2, 3, 4, 5, 6] }

/-- A one-trial estimator state used to exercise the repeated-call
theorem on the smallest consistent model. -/
def oneTrialRansac : Ransac :=
  { mbUseSampson := false
    mnInlierThreshold := 0
    mRansacModel :=
      { hypotheses := [ScaledMat3.zero]
        nInliers := [0]
        twoPoints := [(0, 0)]
        nIterations := 1 }
    mvInlierCandidateIndices := [] }

/-! Helper lemmas: field preservation of the per-trial operations. -/

theorem SetPointSet_fields (rand : Rand) (m t : ℕ) (r : Ransac) :
    (SetPointSet rand m t r).mbUseSampson = r.mbUseSampson ∧
    (SetPointSet rand m t r).mnInlierThreshold = r.mnInlierThreshold ∧
    (SetPointSet rand m t r).mvInlierCandidateIndices = r.mvInlierCandidateIndices ∧
    (SetPointSet rand m t r).mRansacModel.nIterations = r.mRansacModel.nIterations ∧
    (SetPointSet rand m t r).mRansacModel.hypotheses = r.mRansacModel.hypotheses ∧
    (SetPointSet rand m t r).mRansacModel.nInliers = r.mRansacModel.nInliers ∧
    (SetPointSet rand m t r).mRansacModel.twoPoints.length =
      r.mRansacModel.twoPoints.length := by
  refine ⟨rfl, rfl, rfl, rfl, rfl, rfl, ?_⟩
  simp [SetPointSet]

theorem SetRansacModel_fields (Points1 Points2 : List Vec3) (R : Mat3) (t : ℕ) (r : Ransac) :
    (SetRansacModel Points1 Points2 R t r).mbUseSampson = r.mbUseSampson ∧
    (SetRansacModel Points1 Points2 R t r).mnInlierThreshold = r.mnInlierThreshold ∧
    (SetRansacModel Points1 Points2 R t r).mvInlierCandidateIndices =
      r.mvInlierCandidateIndices ∧
    (SetRansacModel Points1 Points2 R t r).mRansacModel.nIterations =
      r.mRansacModel.nIterations ∧
    (SetRansacModel Points1 Points2 R t r).mRansacModel.hypotheses.length =
      r.mRansacModel.hypotheses.length ∧
    (SetRansacModel Points1 Points2 R t r).mRansacModel.nInliers =
      r.mRansacModel.nInliers ∧
    (SetRansacModel Points1 Points2 R t r).mRansacModel.twoPoints =
      r.mRansacModel.twoPoints := by
  refine ⟨rfl, rfl, rfl, rfl, ?_, rfl, rfl⟩
  simp [SetRansacModel]

theorem CountInliers_fields (Points1 Points2 : List Vec3) (t : ℕ) (r : Ransac) :
    (CountInliers Points1 Points2 t r).mbUseSampson = r.mbUseSampson ∧
    (CountInliers Points1 Points2 t r).mnInlierThreshold = r.mnInlierThreshold ∧
    (CountInliers Points1 Points2 t r).mvInlierCandidateIndices =
      r.mvInlierCandidateIndices ∧
    (CountInliers Points1 Points2 t r).mRansacModel.nIterations =
      r.mRansacModel.nIterations ∧
    (CountInliers Points1 Points2 t r).mRansacModel.hypotheses =
      r.mRansacModel.hypotheses ∧
    (CountInliers Points1 Points2 t r).mRansacModel.nInliers.length =
      r.mRansacModel.nInliers.length ∧
    (CountInliers Points1 Points2 t r).mRansacModel.twoPoints =
      r.mRansacModel.twoPoints := by
  refine ⟨rfl, rfl, rfl, rfl, rfl, ?_, rfl⟩
  simp [CountInliers]

theorem trialStep_fields (rand : Rand) (Points1 Points2 : List Vec3) (R : Mat3) (m : ℕ)
    (r : Ransac) (t : ℕ) :
    (trialStep rand Points1 Points2 R m r t).mbUseSampson = r.mbUseSampson ∧
    (trialStep rand Points1 Points2 R m r t).mnInlierThreshold = r.mnInlierThreshold ∧
    (trialStep rand Points1 Points2 R m r t).mvInlierCandidateIndices =
      r.mvInlierCandidateIndices ∧
    (trialStep rand Points1 Points2 R m r t).mRansacModel.nIterations =
      r.mRansacModel.nIterations ∧
    (trialStep rand Points1 Points2 R m r t).mRansacModel.hypotheses.length =
      r.mRansacModel.hypotheses.length ∧
    (trialStep rand Points1 Points2 R m r t).mRansacModel.nInliers.length =
      r.mRansacModel.nInliers.length ∧
    (trialStep rand Points1 Points2 R m r t).mRansacModel.twoPoints.length =
      r.mRansacModel.twoPoints.length := by
  unfold trialStep
  refine ⟨rfl, rfl, rfl, rfl, ?_, ?_, ?_⟩ <;>
    simp [CountInliers, SetRansacModel, SetPointSet]

theorem foldl_trialStep_fields (rand : Rand) (Points1 Points2 : List Vec3) (R : Mat3)
    (m : ℕ) (l : List ℕ) (r : Ransac) :
    let sF := l.foldl (trialStep rand Points1 Points2 R m) r
    sF.mbUseSampson = r.mbUseSampson ∧
    sF.mnInlierThreshold = r.mnInlierThreshold ∧
    sF.mvInlierCandidateIndices = r.mvInlierCandidateIndices ∧
    sF.mRansacModel.nIterations = r.mRansacModel.nIterations ∧
    sF.mRansacModel.hypotheses.length = r.mRansacModel.hypotheses.length ∧
    sF.mRansacModel.nInliers.length = r.mRansacModel.nInliers.length ∧
    sF.mRansacModel.twoPoints.length = r.mRansacModel.twoPoints.length := by
  induction l generalizing r with
  | nil => exact ⟨rfl, rfl, rfl, rfl, rfl, rfl, rfl⟩
  | cons t l ih =>
      have hs := trialStep_fields rand Points1 Points2 R m r t
      have hl := ih (trialStep rand Points1 Points2 R m r t)
      simp only [List.foldl_cons] at *
      exact ⟨hl.1.trans hs.1, hl.2.1.trans hs.2.1, hl.2.2.1.trans hs.2.2.1,
        hl.2.2.2.1.trans hs.2.2.2.1, hl.2.2.2.2.1.trans hs.2.2.2.2.1,
        hl.2.2.2.2.2.1.trans hs.2.2.2.2.2.1, hl.2.2.2.2.2.2.trans hs.2.2.2.2.2.2⟩

/-! Helper lemmas: reading a list after a positional write. -/

theorem getD_set_self {α : Type} (l : List α) (n : ℕ) (a d : α) (h : n < l.length) :
    (l.set n a).getD n d = a := by
  simp [List.getD_eq_getElem?_getD, List.getElem?_set_self, h]

theorem getD_set_ne {α : Type} (l : List α) (n m : ℕ) (a d : α) (h : n ≠ m) :
    (l.set n a).getD m d = l.getD m d := by
  simp [List.getD_eq_getElem?_getD, List.getElem?_set_ne h]

/-! Helper lemmas: what one trial writes, and what the trial loop leaves. -/

theorem trialStep_count (rand : Rand) (Points1 Points2 : List Vec3) (R : Mat3) (m : ℕ)
    (r : Ransac) (t : ℕ) (ht : t < r.mRansacModel.nInliers.length) :
    (trialStep rand Points1 Points2 R m r t).mRansacModel.nInliers.getD t 0 =
      (countFor r.mbUseSampson r.mnInlierThreshold r.mvInlierCandidateIndices
        Points1 Points2
        ((trialStep rand Points1 Points2 R m r t).mRansacModel.hypotheses.getD t
          ScaledMat3.zero) : ℤ) := by
  simp only [trialStep, CountInliers, SetRansacModel, SetPointSet]
  exact getD_set_self _ t _ 0 (by simpa using ht)

theorem trialStep_getD_ne (rand : Rand) (Points1 Points2 : List Vec3) (R : Mat3) (m : ℕ)
    (r : Ransac) (t s : ℕ) (hst : s ≠ t) :
    (trialStep rand Points1 Points2 R m r t).mRansacModel.nInliers.getD s 0 =
      r.mRansacModel.nInliers.getD s 0 ∧
    (trialStep rand Points1 Points2 R m r t).mRansacModel.hypotheses.getD s ScaledMat3.zero =
      r.mRansacModel.hypotheses.getD s ScaledMat3.zero := by
  constructor
  · simp only [trialStep, CountInliers, SetRansacModel, SetPointSet]
    exact getD_set_ne _ t s _ 0 (fun he => hst he.symm)
  · simp only [trialStep, CountInliers, SetRansacModel, SetPointSet]
    exact getD_set_ne _ t s _ ScaledMat3.zero (fun he => hst he.symm)

theorem foldl_trialStep_count (rand : Rand) (Points1 Points2 : List Vec3) (R : Mat3)
    (m N : ℕ) (r : Ransac) (hN : N ≤ r.mRansacModel.nInliers.length) :
    ∀ t, t < N →
      ((List.range N).foldl (trialStep rand Points1 Points2 R m) r).mRansacModel.nInliers.getD
          t 0 =
        (countFor r.mbUseSampson r.mnInlierThreshold r.mvInlierCandidateIndices
          Points1 Points2
          (((List.range N).foldl (trialStep rand Points1 Points2 R m)
              r).mRansacModel.hypotheses.getD t ScaledMat3.zero) : ℤ) := by
  induction N with
  | zero => intro t ht; omega
  | succ N ih =>
      intro t ht
      rw [List.range_succ, List.foldl_append, List.foldl_cons, List.foldl_nil]
      set sN := (List.range N).foldl (trialStep rand Points1 Points2 R m) r with hsN
      have hfields := foldl_trialStep_fields rand Points1 Points2 R m (List.range N) r
      rcases Nat.lt_or_ge t N with htN | htN
      · have hne : t ≠ N := by omega
        have hpres := trialStep_getD_ne rand Points1 Points2 R m sN N t hne
        rw [hpres.1, hpres.2]
        exact ih (by omega) t htN
      · have htEq : t = N := by omega
        subst htEq
        have hlen : t < sN.mRansacModel.nInliers.length := by
          rw [hfields.2.2.2.2.2.1]
          omega
        have := trialStep_count rand Points1 Points2 R m sN t hlen
        rw [this, hfields.1, hfields.2.1, hfields.2.2.1]

/-! Helper lemmas: the candidate index set built from a flag vector. -/

theorem mem_candidateIndices (l : List ℕ) (i : ℕ) :
    i ∈ candidateIndices l ↔ i < l.length ∧ l.getD i 0 ≠ 0 := by
  simp [candidateIndices, List.mem_filter, List.mem_range]

theorem candidateIndices_length (l : List ℕ) :
    (candidateIndices l).length = (l.filter (fun a => a ≠ 0)).length := by
  induction l with
  | nil => rfl
  | cons a l ih =>
      unfold candidateIndices at *
      rw [List.length_cons, List.range_succ_eq_map, List.filter_cons, List.filter_cons]
      have hmap : ((List.range l.length).map Nat.succ).filter
            (fun i => decide ((a :: l).getD i 0 ≠ 0)) =
          ((List.range l.length).filter (fun i => decide (l.getD i 0 ≠ 0))).map
            Nat.succ := by
        rw [List.filter_map]
        exact congrArg _ (List.filter_congr (fun i _ => rfl))
      rw [hmap]
      simp only [List.getD_cons_zero]
      by_cases ha : a = 0
      · subst ha
        rw [if_neg (by simp), if_neg (by simp), List.length_map, ih]
      · rw [if_pos (by simpa using ha), if_pos (by simpa using ha),
          List.length_cons, List.length_cons, List.length_map, ih]

/-! Helper lemmas: the first-maximum selector. -/

theorem getD_default (l : List ℤ) (i : ℕ) (h : i < l.length) (d e : ℤ) :
    l.getD i d = l.getD i e := by
  rw [List.getD_eq_getElem l d h, List.getD_eq_getElem l e h]

theorem argmaxIdx_cons (x : ℤ) (xs : List ℤ) :
    argmaxIdx (x :: xs) =
      if x < xs.getD (argmaxIdx xs) x then argmaxIdx xs + 1 else 0 := by
  rfl

theorem argmaxIdx_lt_length (l : List ℤ) (h : l ≠ []) : argmaxIdx l < l.length := by
  induction l with
  | nil => exact absurd rfl h
  | cons x xs ih =>
      rw [argmaxIdx_cons]
      by_cases hx : x < xs.getD (argmaxIdx xs) x
      · have hne : xs ≠ [] := by
          intro he
          subst he
          simp [List.getD] at hx
        rw [if_pos hx]
        exact Nat.succ_lt_succ (ih hne)
      · rw [if_neg hx]
        exact Nat.succ_pos _

theorem argmaxIdx_is_max (l : List ℤ) (t : ℕ) (ht : t < l.length) :
    l.getD t 0 ≤ l.getD (argmaxIdx l) 0 := by
  induction l generalizing t with
  | nil => simp at ht
  | cons x xs ih =>
      rw [argmaxIdx_cons]
      by_cases hne : xs = []
      · subst hne
        have ht0 : t = 0 := by simpa using ht
        subst ht0
        simp [List.getD]
      · have hjlt : argmaxIdx xs < xs.length := argmaxIdx_lt_length xs hne
        have hdd : xs.getD (argmaxIdx xs) x = xs.getD (argmaxIdx xs) 0 :=
          getD_default xs (argmaxIdx xs) hjlt x 0
        rw [hdd]
        by_cases hx : x < xs.getD (argmaxIdx xs) 0
        · simp only [hx, if_true]
          match t with
          | 0 => simpa [List.getD_cons_succ] using le_of_lt hx
          | u + 1 =>
              have hu : u < xs.length := by simpa using ht
              simpa [List.getD_cons_succ] using ih u hu
        · simp only [hx, if_false]
          match t with
          | 0 => exact le_refl _
          | u + 1 =>
              have hu : u < xs.length := by simpa using ht
              have h1 : xs.getD u 0 ≤ xs.getD (argmaxIdx xs) 0 := ih u hu
              have h2 : xs.getD (argmaxIdx xs) 0 ≤ x := le_of_not_lt hx
              simpa [List.getD_cons_succ, List.getD_cons_zero] using h1.trans h2

theorem argmaxIdx_first (l : List ℤ) (t : ℕ) (ht : t < argmaxIdx l) :
    l.getD t 0 < l.getD (argmaxIdx l) 0 := by
  induction l generalizing t with
  | nil => simp [argmaxIdx] at ht
  | cons x xs ih =>
      rw [argmaxIdx_cons] at ht ⊢
      by_cases hne : xs = []
      · subst hne
        simp [List.getD] at ht
      · have hjlt : argmaxIdx xs < xs.length := argmaxIdx_lt_length xs hne
        have hdd : xs.getD (argmaxIdx xs) x = xs.getD (argmaxIdx xs) 0 :=
          getD_default xs (argmaxIdx xs) hjlt x 0
        rw [hdd] at ht ⊢
        by_cases hx : x < xs.getD (argmaxIdx xs) 0
        · simp only [hx, if_true] at ht ⊢
          match t with
          | 0 => simpa [List.getD_cons_succ, List.getD_cons_zero] using hx
          | u + 1 =>
              have hu : u < argmaxIdx xs := by omega
              simpa [List.getD_cons_succ] using ih u hu
        · simp only [hx, if_false] at ht
          omega

/-! Helper lemmas: unfolding a non-degenerate call, and the refinement pass. -/

theorem findInliers_eq (rand : Rand) (Points1 Points2 : List Vec3) (R : Mat3)
    (vInlierFlag : List ℕ) (r : Ransac)
    (hc : ¬ (candidateIndices vInlierFlag).length < 2) :
    FindInliers rand Points1 Points2 R vInlierFlag r =
      ((loopState rand Points1 Points2 R vInlierFlag r).mRansacModel.nInliers.getD
          (argmaxIdx (loopState rand Points1 Points2 R vInlierFlag
            r).mRansacModel.nInliers) 0,
       refineFlags (loopState rand Points1 Points2 R vInlierFlag r).mbUseSampson
         (loopState rand Points1 Points2 R vInlierFlag r).mnInlierThreshold
         Points1 Points2
         ((loopState rand Points1 Points2 R vInlierFlag r).mRansacModel.hypotheses.getD
           (argmaxIdx (loopState rand Points1 Points2 R vInlierFlag
             r).mRansacModel.nInliers) ScaledMat3.zero)
         vInlierFlag,
       loopState rand Points1 Points2 R vInlierFlag r) := by
  rw [FindInliers, if_neg hc]
  rfl

theorem loopState_fields (rand : Rand) (Points1 Points2 : List Vec3) (R : Mat3)
    (vInlierFlag : List ℕ) (r : Ransac) :
    (loopState rand Points1 Points2 R vInlierFlag r).mbUseSampson = r.mbUseSampson ∧
    (loopState rand Points1 Points2 R vInlierFlag r).mnInlierThreshold =
      r.mnInlierThreshold ∧
    (loopState rand Points1 Points2 R vInlierFlag r).mvInlierCandidateIndices =
      candidateIndices vInlierFlag ∧
    (loopState rand Points1 Points2 R vInlierFlag r).mRansacModel.nIterations =
      r.mRansacModel.nIterations ∧
    (loopState rand Points1 Points2 R vInlierFlag r).mRansacModel.hypotheses.length =
      r.mRansacModel.hypotheses.length ∧
    (loopState rand Points1 Points2 R vInlierFlag r).mRansacModel.nInliers.length =
      r.mRansacModel.nInliers.length ∧
    (loopState rand Points1 Points2 R vInlierFlag r).mRansacModel.twoPoints.length =
      r.mRansacModel.twoPoints.length :=
  foldl_trialStep_fields rand Points1 Points2 R (candidateIndices vInlierFlag).length
    (List.range r.mRansacModel.nIterations)
    { r with mvInlierCandidateIndices := candidateIndices vInlierFlag }

theorem refineFlags_length (bUseSampson : Bool) (θ : ℚ) (Points1 Points2 : List Vec3)
    (E : ScaledMat3) (vInlierFlag : List ℕ) :
    (refineFlags bUseSampson θ Points1 Points2 E vInlierFlag).length =
      vInlierFlag.length := by
  rw [refineFlags, List.length_map, List.length_range]

theorem refineFlags_getD (bUseSampson : Bool) (θ : ℚ) (Points1 Points2 : List Vec3)
    (E : ScaledMat3) (vInlierFlag : List ℕ) (i : ℕ) (hi : i < vInlierFlag.length) :
    (refineFlags bUseSampson θ Points1 Points2 E vInlierFlag).getD i 0 =
      if vInlierFlag.getD i 0 ≠ 0 ∧
          errSel bUseSampson (Points1.getD i Vec3.zero) (Points2.getD i Vec3.zero) E > θ
      then 0 else vInlierFlag.getD i 0 := by
  rw [refineFlags, List.getD_eq_getElem?_getD, List.getElem?_map,
    List.getElem?_range hi]
  rfl

theorem findInliers_val (rand : Rand) (Points1 Points2 : List Vec3) (R : Mat3)
    (vInlierFlag : List ℕ) (r : Ransac)
    (hc : ¬ (candidateIndices vInlierFlag).length < 2) :
    (FindInliers rand Points1 Points2 R vInlierFlag r).1 =
      (loopState rand Points1 Points2 R vInlierFlag r).mRansacModel.nInliers.getD
        (argmaxIdx (loopState rand Points1 Points2 R vInlierFlag
          r).mRansacModel.nInliers) 0 := by
  rw [findInliers_eq rand Points1 Points2 R vInlierFlag r hc]

theorem findInliers_flags (rand : Rand) (Points1 Points2 : List Vec3) (R : Mat3)
    (vInlierFlag : List ℕ) (r : Ransac)
    (hc : ¬ (candidateIndices vInlierFlag).length < 2) :
    (FindInliers rand Points1 Points2 R vInlierFlag r).2.1 =
      refineFlags (loopState rand Points1 Points2 R vInlierFlag r).mbUseSampson
        (loopState rand Points1 Points2 R vInlierFlag r).mnInlierThreshold
        Points1 Points2
        ((loopState rand Points1 Points2 R vInlierFlag r).mRansacModel.hypotheses.getD
          (argmaxIdx (loopState rand Points1 Points2 R vInlierFlag
            r).mRansacModel.nInliers) ScaledMat3.zero)
        vInlierFlag := by
  rw [findInliers_eq rand Points1 Points2 R vInlierFlag r hc]

theorem findInliers_state (rand : Rand) (Points1 Points2 : List Vec3) (R : Mat3)
    (vInlierFlag : List ℕ) (r : Ransac)
    (hc : ¬ (candidateIndices vInlierFlag).length < 2) :
    (FindInliers rand Points1 Points2 R vInlierFlag r).2.2 =
      loopState rand Points1 Points2 R vInlierFlag r := by
  rw [findInliers_eq rand Points1 Points2 R vInlierFlag r hc]

theorem candidateIndices_refineFlags (bUseSampson : Bool) (θ : ℚ)
    (Points1 Points2 : List Vec3) (E : ScaledMat3) (vInlierFlag : List ℕ) :
    candidateIndices (refineFlags bUseSampson θ Points1 Points2 E vInlierFlag) =
      (candidateIndices vInlierFlag).filter (fun i =>
        ¬ errSel bUseSampson (Points1.getD i Vec3.zero) (Points2.getD i Vec3.zero) E
          > θ) := by
  unfold candidateIndices
  rw [refineFlags_length, List.filter_filter]
  apply List.filter_congr
  intro i hi
  have hilt : i < vInlierFlag.length := List.mem_range.mp hi
  rw [refineFlags_getD _ _ _ _ _ _ i hilt, ← Bool.decide_and]
  rw [decide_eq_decide]
  constructor
  · intro h
    by_cases hB : errSel bUseSampson (Points1.getD i Vec3.zero)
        (Points2.getD i Vec3.zero) E > θ
    · by_cases hA : vInlierFlag.getD i 0 ≠ 0
      · rw [if_pos ⟨hA, hB⟩] at h
        exact absurd rfl h
      · rw [if_neg (fun hc => hA hc.1)] at h
        exact absurd h hA
    · rw [if_neg (fun hc => hB hc.2)] at h
      exact ⟨hB, h⟩
  · intro h
    rw [if_neg (fun hc => h.1 hc.2)]
    exact h.2

theorem countFor_refined (bUseSampson : Bool) (θ : ℚ) (Points1 Points2 : List Vec3)
    (E : ScaledMat3) (cand : List ℕ) :
    countFor bUseSampson θ (cand.filter (fun i =>
        ¬ errSel bUseSampson (Points1.getD i Vec3.zero) (Points2.getD i Vec3.zero) E
          > θ)) Points1 Points2 E =
      countFor bUseSampson θ cand Points1 Points2 E := by
  unfold countFor
  rw [List.filter_filter]
  apply congrArg List.length
  apply List.filter_congr
  intro i _
  rw [← Bool.decide_and, decide_eq_decide]
  constructor
  · intro h
    exact h.1
  · intro h
    exact ⟨h, fun hgt => absurd (lt_trans h hgt) (lt_irrefl _)⟩

theorem loopState_count (rand : Rand) (Points1 Points2 : List Vec3) (R : Mat3)
    (vInlierFlag : List ℕ) (r : Ransac)
    (hlen : r.mRansacModel.nIterations ≤ r.mRansacModel.nInliers.length) :
    ∀ t, t < r.mRansacModel.nIterations →
      (loopState rand Points1 Points2 R vInlierFlag r).mRansacModel.nInliers.getD t 0 =
        (countFor r.mbUseSampson r.mnInlierThreshold (candidateIndices vInlierFlag)
          Points1 Points2
          ((loopState rand Points1 Points2 R vInlierFlag
            r).mRansacModel.hypotheses.getD t ScaledMat3.zero) : ℤ) := by
  intro t ht
  have hc := foldl_trialStep_count rand Points1 Points2 R
    (candidateIndices vInlierFlag).length r.mRansacModel.nIterations
    { r with mvInlierCandidateIndices := candidateIndices vInlierFlag }
    (by simpa using hlen) t ht
  simpa [loopState] using hc

/-! Claim theorems. -/

/-- C2: whenever the flag vector has fewer than 2 non-zero entries,
`FindInliers` reports the degenerate-input condition: it returns zero
inliers, hands back the caller's flag vector entirely unmodified, the
per-trial model untouched, and it consults the random source for no
draw at all (the result is the same for every random source). -/
theorem findInliers_degenerate (rand : Rand) (Points1 Points2 : List Vec3) (R : Mat3)
    (vInlierFlag : List ℕ) (r : Ransac)
    (hdeg : (vInlierFlag.filter (fun a => a ≠ 0)).length < 2) :
    FindInliers rand Points1 Points2 R vInlierFlag r =
      (0, vInlierFlag,
        { r with mvInlierCandidateIndices := candidateIndices vInlierFlag }) ∧
    ∀ rand2 : Rand,
      FindInliers rand2 Points1 Points2 R vInlierFlag r =
        FindInliers rand Points1 Points2 R vInlierFlag r := by
  have hc : (candidateIndices vInlierFlag).length < 2 := by
    rw [candidateIndices_length]
    exact hdeg
  constructor
  · rw [FindInliers]
    exact if_pos hc
  · intro rand2
    rw [FindInliers, FindInliers]
    rw [if_pos hc, if_pos hc]

/-- C2 witness: a single candidate triggers the degenerate branch. -/
theorem findInliers_degenerate_witness :
    ([(1:ℕ), 0].filter (fun a => a ≠ 0)).length < 2 ∧
    FindInliers (fun k _ => k) [] [] Mat3.zero [1, 0] (Ransac.new false 1) =
      (0, [1, 0],
        { Ransac.new false 1 with mvInlierCandidateIndices := candidateIndices [1, 0] }) :=
  ⟨by decide,
    (findInliers_degenerate (fun k _ => k) [] [] Mat3.zero [1, 0] (Ransac.new false 1)
      (by decide)).1⟩

/-- C1: in a non-degenerate call the flag vector is refined in place only
by clearing: a candidate entry (non-zero on entry) whose selected error
against the winning hypothesis exceeds the inlier threshold comes back
zero, every other entry comes back exactly as it went in, and in
particular no entry that was zero on input is ever non-zero on
output. -/
theorem findInliers_refine_only_clears (rand : Rand) (Points1 Points2 : List Vec3)
    (R : Mat3) (vInlierFlag : List ℕ) (r : Ransac)
    (hnd : 2 ≤ (vInlierFlag.filter (fun a => a ≠ 0)).length) :
    let res := FindInliers rand Points1 Points2 R vInlierFlag r
    let Estar := res.2.2.mRansacModel.hypotheses.getD
      (argmaxIdx res.2.2.mRansacModel.nInliers) ScaledMat3.zero
    res.2.1.length = vInlierFlag.length ∧
    ∀ i, i < vInlierFlag.length →
      ((vInlierFlag.getD i 0 ≠ 0 ∧
          r.errorOf (Points1.getD i Vec3.zero) (Points2.getD i Vec3.zero) Estar >
            r.mnInlierThreshold) →
        res.2.1.getD i 0 = 0) ∧
      (¬(vInlierFlag.getD i 0 ≠ 0 ∧
          r.errorOf (Points1.getD i Vec3.zero) (Points2.getD i Vec3.zero) Estar >
            r.mnInlierThreshold) →
        res.2.1.getD i 0 = vInlierFlag.getD i 0) ∧
      (vInlierFlag.getD i 0 = 0 → res.2.1.getD i 0 = 0) := by
  intro res Estar
  have hc : ¬ (candidateIndices vInlierFlag).length < 2 := by
    rw [candidateIndices_length]
    omega
  have hres := findInliers_eq rand Points1 Points2 R vInlierFlag r hc
  have hflds := loopState_fields rand Points1 Points2 R vInlierFlag r
  have h21 : res.2.1 =
      refineFlags (loopState rand Points1 Points2 R vInlierFlag r).mbUseSampson
        (loopState rand Points1 Points2 R vInlierFlag r).mnInlierThreshold
        Points1 Points2
        ((loopState rand Points1 Points2 R vInlierFlag
            r).mRansacModel.hypotheses.getD
          (argmaxIdx (loopState rand Points1 Points2 R vInlierFlag
            r).mRansacModel.nInliers) ScaledMat3.zero)
        vInlierFlag := by
    show (FindInliers rand Points1 Points2 R vInlierFlag r).2.1 = _
    rw [hres]
  have hE : Estar = (loopState rand Points1 Points2 R vInlierFlag
      r).mRansacModel.hypotheses.getD
        (argmaxIdx (loopState rand Points1 Points2 R vInlierFlag
          r).mRansacModel.nInliers) ScaledMat3.zero := by
    show (FindInliers rand Points1 Points2 R vInlierFlag r).2.2.mRansacModel.hypotheses.getD
      (argmaxIdx (FindInliers rand Points1 Points2 R vInlierFlag
        r).2.2.mRansacModel.nInliers) ScaledMat3.zero = _
    rw [hres]
  constructor
  · rw [h21, refineFlags_length]
  · intro i hi
    have hval : res.2.1.getD i 0 =
        (if vInlierFlag.getD i 0 ≠ 0 ∧
            r.errorOf (Points1.getD i Vec3.zero) (Points2.getD i Vec3.zero) Estar >
              r.mnInlierThreshold
          then 0 else vInlierFlag.getD i 0) := by
      rw [h21, refineFlags_getD _ _ _ _ _ _ i hi, hflds.1, hflds.2.1, hE]
      rfl
    refine ⟨?_, ?_, ?_⟩
    · intro hcond
      rw [hval, if_pos hcond]
    · intro hcond
      rw [hval, if_neg hcond]
    · intro hzero
      rw [hval]
      by_cases hcond : vInlierFlag.getD i 0 ≠ 0 ∧
          r.errorOf (Points1.getD i Vec3.zero) (Points2.getD i Vec3.zero) Estar >
            r.mnInlierThreshold
      · rw [if_pos hcond]
      · rw [if_neg hcond]
        exact hzero

/-- C1 witness: a concrete two-candidate call on a freshly constructed
estimator. -/
theorem findInliers_refine_only_clears_witness :
    2 ≤ ([(1:ℕ), 0, 1].filter (fun a => a ≠ 0)).length ∧
    (let res := FindInliers (fun k _ => k) [] [] Mat3.zero [1, 0, 1] (Ransac.new true 1)
     let Estar := res.2.2.mRansacModel.hypotheses.getD
       (argmaxIdx res.2.2.mRansacModel.nInliers) ScaledMat3.zero
     res.2.1.length = ([(1:ℕ), 0, 1] : List ℕ).length ∧
     ∀ i, i < ([(1:ℕ), 0, 1] : List ℕ).length →
       (([(1:ℕ), 0, 1].getD i 0 ≠ 0 ∧
           (Ransac.new true 1).errorOf (([] : List Vec3).getD i Vec3.zero)
             (([] : List Vec3).getD i Vec3.zero) Estar >
             (Ransac.new true 1).mnInlierThreshold) →
         res.2.1.getD i 0 = 0) ∧
       (¬([(1:ℕ), 0, 1].getD i 0 ≠ 0 ∧
           (Ransac.new true 1).errorOf (([] : List Vec3).getD i Vec3.zero)
             (([] : List Vec3).getD i Vec3.zero) Estar >
             (Ransac.new true 1).mnInlierThreshold) →
         res.2.1.getD i 0 = [(1:ℕ), 0, 1].getD i 0) ∧
       ([(1:ℕ), 0, 1].getD i 0 = 0 → res.2.1.getD i 0 = 0)) :=
  ⟨by decide,
    findInliers_refine_only_clears (fun k _ => k) [] [] Mat3.zero [1, 0, 1]
      (Ransac.new true 1) (by decide)⟩

/-- C3: in a non-degenerate call the winner is the first trial with the
maximal inlier count — every trial's count is at most the winner's, and
every earlier trial's count is strictly below it — and the returned
value is exactly the winning trial's stored inlier count. -/
theorem findInliers_winner (rand : Rand) (Points1 Points2 : List Vec3) (R : Mat3)
    (vInlierFlag : List ℕ) (r : Ransac)
    (hnd : 2 ≤ (vInlierFlag.filter (fun a => a ≠ 0)).length)
    (hlen : r.mRansacModel.nInliers.length = r.mRansacModel.nIterations)
    (hpos : 0 < r.mRansacModel.nIterations) :
    let res := FindInliers rand Points1 Points2 R vInlierFlag r
    let ni := res.2.2.mRansacModel.nInliers
    ∃ tstar, tstar < r.mRansacModel.nIterations ∧
      ni.length = r.mRansacModel.nIterations ∧
      res.1 = ni.getD tstar 0 ∧
      (∀ t, t < r.mRansacModel.nIterations → ni.getD t 0 ≤ ni.getD tstar 0) ∧
      (∀ t, t < tstar → ni.getD t 0 < ni.getD tstar 0) := by
  intro res ni
  have hc : ¬ (candidateIndices vInlierFlag).length < 2 := by
    rw [candidateIndices_length]
    omega
  have hres := findInliers_eq rand Points1 Points2 R vInlierFlag r hc
  have hflds := loopState_fields rand Points1 Points2 R vInlierFlag r
  have hniEq : ni =
      (loopState rand Points1 Points2 R vInlierFlag r).mRansacModel.nInliers := by
    show (FindInliers rand Points1 Points2 R vInlierFlag r).2.2.mRansacModel.nInliers = _
    rw [hres]
  have hniLen : ni.length = r.mRansacModel.nIterations := by
    rw [hniEq, hflds.2.2.2.2.2.1]
    exact hlen
  have hne : ni ≠ [] := by
    intro he
    rw [he] at hniLen
    simp at hniLen
    omega
  refine ⟨argmaxIdx ni, ?_, hniLen, ?_, ?_, ?_⟩
  · have := argmaxIdx_lt_length ni hne
    omega
  · show (FindInliers rand Points1 Points2 R vInlierFlag r).1 = ni.getD (argmaxIdx ni) 0
    rw [hres, hniEq]
  · intro t ht
    exact argmaxIdx_is_max ni t (by omega)
  · intro t ht
    exact argmaxIdx_first ni t ht

/-- C3 witness: a concrete non-degenerate call on a freshly constructed
estimator. -/
theorem findInliers_winner_witness :
    2 ≤ ([(1:ℕ), 1].filter (fun a => a ≠ 0)).length ∧
    (let res := FindInliers (fun k _ => k) [] [] Mat3.zero [1, 1] (Ransac.new false 1)
     let ni := res.2.2.mRansacModel.nInliers
     ∃ tstar, tstar < (Ransac.new false 1).mRansacModel.nIterations ∧
       ni.length = (Ransac.new false 1).mRansacModel.nIterations ∧
       res.1 = ni.getD tstar 0 ∧
       (∀ t, t < (Ransac.new false 1).mRansacModel.nIterations →
         ni.getD t 0 ≤ ni.getD tstar 0) ∧
       (∀ t, t < tstar → ni.getD t 0 < ni.getD tstar 0)) :=
  ⟨by decide,
    findInliers_winner (fun k _ => k) [] [] Mat3.zero [1, 1] (Ransac.new false 1)
      (by decide) (by decide) (by decide)⟩

/-- C4: with at least two candidates, `SetPointSet` stores into
`twoPoints[t]` a pair obtained from two distinct positions of `[0, m)`
drawn without replacement and mapped through the inlier-candidate index
set, and — the candidate set holding no duplicates — the two stored
correspondence indices are themselves distinct. -/
theorem setPointSet_samples_distinct (rand : Rand) (m t : ℕ) (r : Ransac)
    (hm : 2 ≤ m) (hml : m ≤ r.mvInlierCandidateIndices.length)
    (hnd : r.mvInlierCandidateIndices.Nodup)
    (ht : t < r.mRansacModel.twoPoints.length) :
    ∃ i1 i2 : ℕ, i1 < m ∧ i2 < m ∧ i1 ≠ i2 ∧
      (SetPointSet rand m t r).mRansacModel.twoPoints.getD t (0, 0) =
        (r.mvInlierCandidateIndices.getD i1 0,
         r.mvInlierCandidateIndices.getD i2 0) ∧
      r.mvInlierCandidateIndices.getD i1 0 ≠ r.mvInlierCandidateIndices.getD i2 0 := by
  have hm0 : 0 < m := by omega
  have hm1 : 0 < m - 1 := by omega
  set i1 := rand (2 * t) m % m with hi1def
  set j := rand (2 * t + 1) (m - 1) % (m - 1) with hjdef
  set i2 := if i1 ≤ j then j + 1 else j with hi2def
  have hi1 : i1 < m := Nat.mod_lt _ hm0
  have hj : j < m - 1 := Nat.mod_lt _ hm1
  have hi2 : i2 < m := by
    rw [hi2def]
    split <;> omega
  have hne : i1 ≠ i2 := by
    rw [hi2def]
    split <;> omega
  refine ⟨i1, i2, hi1, hi2, hne, ?_, ?_⟩
  · have hset : (SetPointSet rand m t r).mRansacModel.twoPoints =
        r.mRansacModel.twoPoints.set t
          (r.mvInlierCandidateIndices.getD i1 0,
           r.mvInlierCandidateIndices.getD i2 0) := by
      simp only [SetPointSet, ← hi1def, ← hjdef, ← hi2def]
    rw [hset]
    exact getD_set_self _ t _ (0, 0) ht
  · intro he
    rw [List.getD_eq_getElem _ 0 (lt_of_lt_of_le hi1 hml),
      List.getD_eq_getElem _ 0 (lt_of_lt_of_le hi2 hml)] at he
    exact hne (hnd.getElem_inj_iff.mp he)

/-- C4 witness: a concrete draw over two candidates. -/
theorem setPointSet_samples_distinct_witness :
    (2 ≤ 2 ∧ 2 ≤ ([3, 5] : List ℕ).length ∧ ([3, 5] : List ℕ).Nodup ∧
      0 < { Ransac.new false 1 with
        mvInlierCandidateIndices := [3, 5] }.mRansacModel.twoPoints.length) ∧
    (∃ i1 i2 : ℕ, i1 < 2 ∧ i2 < 2 ∧ i1 ≠ i2 ∧
      (SetPointSet (fun k _ => k) 2 0
          { Ransac.new false 1 with
            mvInlierCandidateIndices := [3, 5] }).mRansacModel.twoPoints.getD 0 (0, 0) =
        (([3, 5] : List ℕ).getD i1 0, ([3, 5] : List ℕ).getD i2 0) ∧
      ([3, 5] : List ℕ).getD i1 0 ≠ ([3, 5] : List ℕ).getD i2 0) :=
  ⟨⟨by decide, by decide, by decide, by decide⟩,
    setPointSet_samples_distinct (fun k _ => k) 2 0
      { Ransac.new false 1 with mvInlierCandidateIndices := [3, 5] }
      (by decide) (by decide) (by decide) (by decide)⟩

/-- C5: `SetRansacModel` stores into `hypotheses[t]` the skew-symmetric
matrix of the unit-normalized null vector of the two epipolar
constraint rows.  The stored entry is the exact scaled representation
`⟨skew d, d·d⟩` of the real matrix `skew(d)/‖d‖ = skew(d/‖d‖)`, where
`d` spans the null space: its matrix part is skew-symmetric, its
squared Frobenius norm equals twice its scale — so the represented
matrix is the skew of a unit vector, certifying the normalization —
both sampled correspondences satisfy the epipolar constraint
`p2ᵗ·E·(R·p1) = 0` exactly (zero raw residual, hence zero represented
algebraic error), every other trial's hypothesis is unchanged, and
nothing but the two correspondences indexed by `twoPoints[t]` is
read. -/
theorem setRansacModel_hypothesis (Points1 Points2 : List Vec3) (R : Mat3) (t : ℕ)
    (r : Ransac) (ht : t < r.mRansacModel.hypotheses.length) :
    let pr := r.mRansacModel.twoPoints.getD t (0, 0)
    let E := (SetRansacModel Points1 Points2 R t r).mRansacModel.hypotheses.getD t
      ScaledMat3.zero
    (∃ that : Vec3, E = ⟨skew that, that.dot that⟩) ∧
    E.mat.transpose = E.mat.neg ∧
    E.mat.frobSq = 2 * E.sq ∧
    (Points2.getD pr.1 Vec3.zero).dot
      (E.mat.mulVec (R.mulVec (Points1.getD pr.1 Vec3.zero))) = 0 ∧
    (Points2.getD pr.2 Vec3.zero).dot
      (E.mat.mulVec (R.mulVec (Points1.getD pr.2 Vec3.zero))) = 0 ∧
    AlgebraicErrorScaled (R.mulVec (Points1.getD pr.1 Vec3.zero))
      (Points2.getD pr.1 Vec3.zero) E = 0 ∧
    AlgebraicErrorScaled (R.mulVec (Points1.getD pr.2 Vec3.zero))
      (Points2.getD pr.2 Vec3.zero) E = 0 ∧
    (∀ s, s ≠ t →
      (SetRansacModel Points1 Points2 R t r).mRansacModel.hypotheses.getD s
          ScaledMat3.zero =
        r.mRansacModel.hypotheses.getD s ScaledMat3.zero) ∧
    (∀ Q1 Q2 : List Vec3,
      Q1.getD pr.1 Vec3.zero = Points1.getD pr.1 Vec3.zero →
      Q1.getD pr.2 Vec3.zero = Points1.getD pr.2 Vec3.zero →
      Q2.getD pr.1 Vec3.zero = Points2.getD pr.1 Vec3.zero →
      Q2.getD pr.2 Vec3.zero = Points2.getD pr.2 Vec3.zero →
      SetRansacModel Q1 Q2 R t r = SetRansacModel Points1 Points2 R t r) := by
  intro pr E
  have hpr : pr = r.mRansacModel.twoPoints.getD t (0, 0) := rfl
  have hset : (SetRansacModel Points1 Points2 R t r).mRansacModel.hypotheses =
      r.mRansacModel.hypotheses.set t
        ⟨skew (Vec3.cross
          (Vec3.cross (R.mulVec (Points1.getD pr.1 Vec3.zero))
            (Points2.getD pr.1 Vec3.zero))
          (Vec3.cross (R.mulVec (Points1.getD pr.2 Vec3.zero))
            (Points2.getD pr.2 Vec3.zero))),
         (Vec3.cross
          (Vec3.cross (R.mulVec (Points1.getD pr.1 Vec3.zero))
            (Points2.getD pr.1 Vec3.zero))
          (Vec3.cross (R.mulVec (Points1.getD pr.2 Vec3.zero))
            (Points2.getD pr.2 Vec3.zero))).dot
         (Vec3.cross
          (Vec3.cross (R.mulVec (Points1.getD pr.1 Vec3.zero))
            (Points2.getD pr.1 Vec3.zero))
          (Vec3.cross (R.mulVec (Points1.getD pr.2 Vec3.zero))
            (Points2.getD pr.2 Vec3.zero)))⟩ := by
    simp only [SetRansacModel, ← hpr]
  have hE : E = ⟨skew (Vec3.cross
      (Vec3.cross (R.mulVec (Points1.getD pr.1 Vec3.zero))
        (Points2.getD pr.1 Vec3.zero))
      (Vec3.cross (R.mulVec (Points1.getD pr.2 Vec3.zero))
        (Points2.getD pr.2 Vec3.zero))),
      (Vec3.cross
      (Vec3.cross (R.mulVec (Points1.getD pr.1 Vec3.zero))
        (Points2.getD pr.1 Vec3.zero))
      (Vec3.cross (R.mulVec (Points1.getD pr.2 Vec3.zero))
        (Points2.getD pr.2 Vec3.zero))).dot
      (Vec3.cross
      (Vec3.cross (R.mulVec (Points1.getD pr.1 Vec3.zero))
        (Points2.getD pr.1 Vec3.zero))
      (Vec3.cross (R.mulVec (Points1.getD pr.2 Vec3.zero))
        (Points2.getD pr.2 Vec3.zero)))⟩ := by
    show (SetRansacModel Points1 Points2 R t r).mRansacModel.hypotheses.getD t
      ScaledMat3.zero = _
    rw [hset]
    exact getD_set_self _ t _ ScaledMat3.zero ht
  have hresA : (Points2.getD pr.1 Vec3.zero).dot
      ((skew (Vec3.cross
        (Vec3.cross (R.mulVec (Points1.getD pr.1 Vec3.zero))
          (Points2.getD pr.1 Vec3.zero))
        (Vec3.cross (R.mulVec (Points1.getD pr.2 Vec3.zero))
          (Points2.getD pr.2 Vec3.zero)))).mulVec
        (R.mulVec (Points1.getD pr.1 Vec3.zero))) = 0 := by
    simp only [skew, Mat3.mulVec, Vec3.dot, Vec3.cross]
    ring
  have hresB : (Points2.getD pr.2 Vec3.zero).dot
      ((skew (Vec3.cross
        (Vec3.cross (R.mulVec (Points1.getD pr.1 Vec3.zero))
          (Points2.getD pr.1 Vec3.zero))
        (Vec3.cross (R.mulVec (Points1.getD pr.2 Vec3.zero))
          (Points2.getD pr.2 Vec3.zero)))).mulVec
        (R.mulVec (Points1.getD pr.2 Vec3.zero))) = 0 := by
    simp only [skew, Mat3.mulVec, Vec3.dot, Vec3.cross]
    ring
  refine ⟨⟨_, hE⟩, ?_, ?_, ?_, ?_, ?_, ?_, ?_, ?_⟩
  · rw [hE]
    simp [skew, Mat3.transpose, Mat3.neg]
  · rw [hE]
    simp only [Mat3.frobSq, skew, Vec3.dot]
    ring
  · rw [hE]
    exact hresA
  · rw [hE]
    exact hresB
  · rw [hE]
    show AlgebraicError (R.mulVec (Points1.getD pr.1 Vec3.zero))
        (Points2.getD pr.1 Vec3.zero)
        (skew (Vec3.cross
          (Vec3.cross (R.mulVec (Points1.getD pr.1 Vec3.zero))
            (Points2.getD pr.1 Vec3.zero))
          (Vec3.cross (R.mulVec (Points1.getD pr.2 Vec3.zero))
            (Points2.getD pr.2 Vec3.zero)))) /
        ((Vec3.cross
          (Vec3.cross (R.mulVec (Points1.getD pr.1 Vec3.zero))
            (Points2.getD pr.1 Vec3.zero))
          (Vec3.cross (R.mulVec (Points1.getD pr.2 Vec3.zero))
            (Points2.getD pr.2 Vec3.zero))).dot
         (Vec3.cross
          (Vec3.cross (R.mulVec (Points1.getD pr.1 Vec3.zero))
            (Points2.getD pr.1 Vec3.zero))
          (Vec3.cross (R.mulVec (Points1.getD pr.2 Vec3.zero))
            (Points2.getD pr.2 Vec3.zero)))) = 0
    rw [AlgebraicError, hresA]
    norm_num
  · rw [hE]
    show AlgebraicError (R.mulVec (Points1.getD pr.2 Vec3.zero))
        (Points2.getD pr.2 Vec3.zero)
        (skew (Vec3.cross
          (Vec3.cross (R.mulVec (Points1.getD pr.1 Vec3.zero))
            (Points2.getD pr.1 Vec3.zero))
          (Vec3.cross (R.mulVec (Points1.getD pr.2 Vec3.zero))
            (Points2.getD pr.2 Vec3.zero)))) /
        ((Vec3.cross
          (Vec3.cross (R.mulVec (Points1.getD pr.1 Vec3.zero))
            (Points2.getD pr.1 Vec3.zero))
          (Vec3.cross (R.mulVec (Points1.getD pr.2 Vec3.zero))
            (Points2.getD pr.2 Vec3.zero))).dot
         (Vec3.cross
          (Vec3.cross (R.mulVec (Points1.getD pr.1 Vec3.zero))
            (Points2.getD pr.1 Vec3.zero))
          (Vec3.cross (R.mulVec (Points1.getD pr.2 Vec3.zero))
            (Points2.getD pr.2 Vec3.zero)))) = 0
    rw [AlgebraicError, hresB]
    norm_num
  · intro s hs
    rw [hset]
    exact getD_set_ne _ t s _ ScaledMat3.zero (fun he => hs he.symm)
  · intro Q1 Q2 h1 h2 h3 h4
    simp only [SetRansacModel, ← hpr]
    rw [h1, h2, h3, h4]

/-- C5 witness: a concrete trial on a freshly constructed estimator. -/
theorem setRansacModel_hypothesis_witness :
    0 < (Ransac.new false 1).mRansacModel.hypotheses.length ∧
    (let pr := (Ransac.new false 1).mRansacModel.twoPoints.getD 0 (0, 0)
     let E := (SetRansacModel [⟨1, 2, 1⟩] [⟨0, 1, 1⟩] (skew ⟨1, 1, 0⟩) 0
       (Ransac.new false 1)).mRansacModel.hypotheses.getD 0 ScaledMat3.zero
     (∃ that : Vec3, E = ⟨skew that, that.dot that⟩) ∧
     E.mat.transpose = E.mat.neg ∧
     E.mat.frobSq = 2 * E.sq ∧
     (([⟨0, 1, 1⟩] : List Vec3).getD pr.1 Vec3.zero).dot
       (E.mat.mulVec ((skew ⟨1, 1, 0⟩).mulVec
         (([⟨1, 2, 1⟩] : List Vec3).getD pr.1 Vec3.zero))) = 0 ∧
     (([⟨0, 1, 1⟩] : List Vec3).getD pr.2 Vec3.zero).dot
       (E.mat.mulVec ((skew ⟨1, 1, 0⟩).mulVec
         (([⟨1, 2, 1⟩] : List Vec3).getD pr.2 Vec3.zero))) = 0 ∧
     AlgebraicErrorScaled ((skew ⟨1, 1, 0⟩).mulVec
         (([⟨1, 2, 1⟩] : List Vec3).getD pr.1 Vec3.zero))
       (([⟨0, 1, 1⟩] : List Vec3).getD pr.1 Vec3.zero) E = 0 ∧
     AlgebraicErrorScaled ((skew ⟨1, 1, 0⟩).mulVec
         (([⟨1, 2, 1⟩] : List Vec3).getD pr.2 Vec3.zero))
       (([⟨0, 1, 1⟩] : List Vec3).getD pr.2 Vec3.zero) E = 0 ∧
     (∀ s, s ≠ 0 →
       (SetRansacModel [⟨1, 2, 1⟩] [⟨0, 1, 1⟩] (skew ⟨1, 1, 0⟩) 0
           (Ransac.new false 1)).mRansacModel.hypotheses.getD s ScaledMat3.zero =
         (Ransac.new false 1).mRansacModel.hypotheses.getD s ScaledMat3.zero) ∧
     (∀ Q1 Q2 : List Vec3,
       Q1.getD pr.1 Vec3.zero = ([⟨1, 2, 1⟩] : List Vec3).getD pr.1 Vec3.zero →
       Q1.getD pr.2 Vec3.zero = ([⟨1, 2, 1⟩] : List Vec3).getD pr.2 Vec3.zero →
       Q2.getD pr.1 Vec3.zero = ([⟨0, 1, 1⟩] : List Vec3).getD pr.1 Vec3.zero →
       Q2.getD pr.2 Vec3.zero = ([⟨0, 1, 1⟩] : List Vec3).getD pr.2 Vec3.zero →
       SetRansacModel Q1 Q2 (skew ⟨1, 1, 0⟩) 0 (Ransac.new false 1) =
         SetRansacModel [⟨1, 2, 1⟩] [⟨0, 1, 1⟩] (skew ⟨1, 1, 0⟩) 0
           (Ransac.new false 1))) :=
  ⟨by decide,
    setRansacModel_hypothesis [⟨1, 2, 1⟩] [⟨0, 1, 1⟩] (skew ⟨1, 1, 0⟩) 0
      (Ransac.new false 1) (by decide)⟩

/-- C6: `CountInliers` stores into `nInliers[t]` exactly the number of
correspondences of the current inlier-candidate index set whose
selected error against `hypotheses[t]` is below the threshold — a
count never exceeding the candidate population, computed over the
candidate set only — and leaves every other trial's count unchanged. -/
theorem countInliers_count (Points1 Points2 : List Vec3) (t : ℕ) (r : Ransac)
    (ht : t < r.mRansacModel.nInliers.length) :
    (CountInliers Points1 Points2 t r).mRansacModel.nInliers.getD t 0 =
      ((r.mvInlierCandidateIndices.filter (fun i =>
          r.errorOf (Points1.getD i Vec3.zero) (Points2.getD i Vec3.zero)
            (r.mRansacModel.hypotheses.getD t ScaledMat3.zero) <
            r.mnInlierThreshold)).length : ℤ) ∧
    (r.mvInlierCandidateIndices.filter (fun i =>
        r.errorOf (Points1.getD i Vec3.zero) (Points2.getD i Vec3.zero)
          (r.mRansacModel.hypotheses.getD t ScaledMat3.zero) <
          r.mnInlierThreshold)).length ≤ r.mvInlierCandidateIndices.length ∧
    ∀ s, s ≠ t →
      (CountInliers Points1 Points2 t r).mRansacModel.nInliers.getD s 0 =
        r.mRansacModel.nInliers.getD s 0 := by
  refine ⟨?_, List.length_filter_le _ _, ?_⟩
  · have hset : (CountInliers Points1 Points2 t r).mRansacModel.nInliers =
        r.mRansacModel.nInliers.set t
          ((countFor r.mbUseSampson r.mnInlierThreshold r.mvInlierCandidateIndices
            Points1 Points2 (r.mRansacModel.hypotheses.getD t ScaledMat3.zero) : ℕ) : ℤ) := by
      simp only [CountInliers]
    rw [hset, getD_set_self _ t _ 0 ht]
    rfl
  · intro s hs
    have hset : (CountInliers Points1 Points2 t r).mRansacModel.nInliers =
        r.mRansacModel.nInliers.set t
          ((countFor r.mbUseSampson r.mnInlierThreshold r.mvInlierCandidateIndices
            Points1 Points2 (r.mRansacModel.hypotheses.getD t ScaledMat3.zero) : ℕ) : ℤ) := by
      simp only [CountInliers]
    rw [hset]
    exact getD_set_ne _ t s _ 0 (fun he => hs he.symm)

/-- C6 witness: a concrete trial with an empty candidate set. -/
theorem countInliers_count_witness :
    0 < (Ransac.new false 1).mRansacModel.nInliers.length ∧
    (CountInliers [] [] 0 (Ransac.new false 1)).mRansacModel.nInliers.getD 0 0 =
      ((((Ransac.new false 1).mvInlierCandidateIndices).filter (fun i =>
          (Ransac.new false 1).errorOf (([] : List Vec3).getD i Vec3.zero)
            (([] : List Vec3).getD i Vec3.zero)
            ((Ransac.new false 1).mRansacModel.hypotheses.getD 0 ScaledMat3.zero) <
            (Ransac.new false 1).mnInlierThreshold)).length : ℤ) :=
  ⟨by decide, (countInliers_count [] [] 0 (Ransac.new false 1) (by decide)).1⟩

/-- C7: both error metrics are pure scoring functions returning a
non-negative scalar; when the Sampson denominator vanishes the result
is the large positive finite sentinel, taken without performing the
division. -/
theorem errorMetrics_safe (pt1 pt2 : Vec3) (E : Mat3) :
    0 ≤ AlgebraicError pt1 pt2 E ∧
    0 ≤ SampsonError pt1 pt2 E ∧
    0 < sampsonSentinel ∧
    ((E.mulVec pt1).x ^ 2 + (E.mulVec pt1).y ^ 2 + (E.transpose.mulVec pt2).x ^ 2 +
        (E.transpose.mulVec pt2).y ^ 2 = 0 →
      SampsonError pt1 pt2 E = sampsonSentinel) := by
  have hsent : (0 : ℚ) < sampsonSentinel := by norm_num [sampsonSentinel]
  refine ⟨sq_nonneg _, ?_, hsent, ?_⟩
  · rw [SampsonError]
    by_cases hd : (E.mulVec pt1).x ^ 2 + (E.mulVec pt1).y ^ 2 +
        (E.transpose.mulVec pt2).x ^ 2 + (E.transpose.mulVec pt2).y ^ 2 = 0
    · rw [if_pos hd]
      exact le_of_lt hsent
    · rw [if_neg hd]
      refine div_nonneg (sq_nonneg _) ?_
      positivity
  · intro hd
    rw [SampsonError, if_pos hd]

/-- C7 witness: the zero matrix makes the Sampson denominator vanish. -/
theorem errorMetrics_safe_witness :
    0 ≤ AlgebraicError ⟨1, 2, 3⟩ ⟨1, 2, 3⟩ Mat3.zero ∧
    SampsonError ⟨1, 2, 3⟩ ⟨1, 2, 3⟩ Mat3.zero = sampsonSentinel :=
  ⟨(errorMetrics_safe ⟨1, 2, 3⟩ ⟨1, 2, 3⟩ Mat3.zero).1,
    (errorMetrics_safe ⟨1, 2, 3⟩ ⟨1, 2, 3⟩ Mat3.zero).2.2.2
      (by simp [Mat3.zero, Mat3.mulVec, Mat3.transpose, Vec3.dot, Vec3.zero])⟩

/-- C8: the constructed `RansacModel` has a trial budget of at least 16,
with `hypotheses`, `nInliers` and `twoPoints` sized one entry per trial
(one 3×3 hypothesis block, one count, one index pair), and no operation
of the estimator ever alters the budget or those sizes. -/
theorem ransacModel_invariants :
    (16 ≤ RansacModel.init.nIterations ∧
      RansacModel.init.hypotheses.length = RansacModel.init.nIterations ∧
      RansacModel.init.nInliers.length = RansacModel.init.nIterations ∧
      RansacModel.init.twoPoints.length = RansacModel.init.nIterations) ∧
    (∀ (rand : Rand) (m t : ℕ) (r : Ransac),
      (SetPointSet rand m t r).mRansacModel.nIterations = r.mRansacModel.nIterations ∧
      (SetPointSet rand m t r).mRansacModel.hypotheses.length =
        r.mRansacModel.hypotheses.length ∧
      (SetPointSet rand m t r).mRansacModel.nInliers.length =
        r.mRansacModel.nInliers.length ∧
      (SetPointSet rand m t r).mRansacModel.twoPoints.length =
        r.mRansacModel.twoPoints.length) ∧
    (∀ (Points1 Points2 : List Vec3) (R : Mat3) (t : ℕ) (r : Ransac),
      (SetRansacModel Points1 Points2 R t r).mRansacModel.nIterations =
        r.mRansacModel.nIterations ∧
      (SetRansacModel Points1 Points2 R t r).mRansacModel.hypotheses.length =
        r.mRansacModel.hypotheses.length ∧
      (SetRansacModel Points1 Points2 R t r).mRansacModel.nInliers.length =
        r.mRansacModel.nInliers.length ∧
      (SetRansacModel Points1 Points2 R t r).mRansacModel.twoPoints.length =
        r.mRansacModel.twoPoints.length) ∧
    (∀ (Points1 Points2 : List Vec3) (t : ℕ) (r : Ransac),
      (CountInliers Points1 Points2 t r).mRansacModel.nIterations =
        r.mRansacModel.nIterations ∧
      (CountInliers Points1 Points2 t r).mRansacModel.hypotheses.length =
        r.mRansacModel.hypotheses.length ∧
      (CountInliers Points1 Points2 t r).mRansacModel.nInliers.length =
        r.mRansacModel.nInliers.length ∧
      (CountInliers Points1 Points2 t r).mRansacModel.twoPoints.length =
        r.mRansacModel.twoPoints.length) ∧
    (∀ (rand : Rand) (Points1 Points2 : List Vec3) (R : Mat3) (vInlierFlag : List ℕ)
        (r : Ransac),
      (FindInliers rand Points1 Points2 R vInlierFlag r).2.2.mRansacModel.nIterations =
        r.mRansacModel.nIterations ∧
      (FindInliers rand Points1 Points2 R vInlierFlag
          r).2.2.mRansacModel.hypotheses.length = r.mRansacModel.hypotheses.length ∧
      (FindInliers rand Points1 Points2 R vInlierFlag
          r).2.2.mRansacModel.nInliers.length = r.mRansacModel.nInliers.length ∧
      (FindInliers rand Points1 Points2 R vInlierFlag
          r).2.2.mRansacModel.twoPoints.length = r.mRansacModel.twoPoints.length) := by
  refine ⟨⟨by decide, by decide, by decide, by decide⟩, ?_, ?_, ?_, ?_⟩
  · intro rand m t r
    refine ⟨rfl, rfl, rfl, ?_⟩
    simp [SetPointSet]
  · intro Points1 Points2 R t r
    refine ⟨rfl, ?_, rfl, rfl⟩
    simp [SetRansacModel]
  · intro Points1 Points2 t r
    refine ⟨rfl, rfl, ?_, rfl⟩
    simp [CountInliers]
  · intro rand Points1 Points2 R vInlierFlag r
    rw [FindInliers]
    by_cases hc : (candidateIndices vInlierFlag).length < 2
    · rw [if_pos hc]
      exact ⟨rfl, rfl, rfl, rfl⟩
    · rw [if_neg hc]
      have hflds := loopState_fields rand Points1 Points2 R vInlierFlag r
      exact ⟨hflds.2.2.2.1, hflds.2.2.2.2.1, hflds.2.2.2.2.2.1, hflds.2.2.2.2.2.2⟩

/-- C10: the trial budget is not configurable: the only constructor sets
`nIterations` to exactly 16 and allocates the stacked hypothesis
storage for 16 three-row blocks (48 rows of width 3), 16 counts and 16
index pairs; a freshly constructed estimator owns exactly that model,
and no operation — `SetPointSet`, `SetRansacModel`, `CountInliers` or
`FindInliers`, whose trial loop runs over `[0, nIterations)` — ever
changes the budget. -/
theorem ransacModel_budget_is_16 :
    RansacModel.init.nIterations = 16 ∧
    RansacModel.init.hypotheses.length = 16 ∧
    3 * RansacModel.init.hypotheses.length = 48 ∧
    RansacModel.init.nInliers.length = 16 ∧
    RansacModel.init.twoPoints.length = 16 ∧
    (∀ (bUseSampson : Bool) (θ : ℚ),
      (Ransac.new bUseSampson θ).mRansacModel = RansacModel.init) ∧
    (∀ (rand : Rand) (m t : ℕ) (r : Ransac),
      (SetPointSet rand m t r).mRansacModel.nIterations = r.mRansacModel.nIterations) ∧
    (∀ (Points1 Points2 : List Vec3) (R : Mat3) (t : ℕ) (r : Ransac),
      (SetRansacModel Points1 Points2 R t r).mRansacModel.nIterations =
        r.mRansacModel.nIterations) ∧
    (∀ (Points1 Points2 : List Vec3) (t : ℕ) (r : Ransac),
      (CountInliers Points1 Points2 t r).mRansacModel.nIterations =
        r.mRansacModel.nIterations) ∧
    (∀ (rand : Rand) (Points1 Points2 : List Vec3) (R : Mat3) (vInlierFlag : List ℕ)
        (r : Ransac),
      (FindInliers rand Points1 Points2 R vInlierFlag r).2.2.mRansacModel.nIterations =
        r.mRansacModel.nIterations) := by
  refine ⟨rfl, by decide, by decide, by decide, by decide, fun _ _ => rfl,
    fun _ _ _ _ => rfl, fun _ _ _ _ _ => rfl, fun _ _ _ _ => rfl, ?_⟩
  intro rand Points1 Points2 R vInlierFlag r
  rw [FindInliers]
  by_cases hc : (candidateIndices vInlierFlag).length < 2
  · rw [if_pos hc]
  · rw [if_neg hc]
    exact (loopState_fields rand Points1 Points2 R vInlierFlag r).2.2.2.1

/-- C9 (amended): a second `FindInliers` call on the flag vector produced
by a first call, with the same correspondences and rotation, returns at
least the first call's inlier count provided some trial of the second
call reproduces the first call's winning hypothesis (for instance when
the random source redraws the winning pair); without that proviso the
count can drop, as the counterexample shows. -/
theorem findInliers_second_call_bound (rand1 rand2 : Rand)
    (Points1 Points2 : List Vec3) (R : Mat3) (vInlierFlag : List ℕ) (r : Ransac)
    (hlen : r.mRansacModel.nInliers.length = r.mRansacModel.nIterations)
    (hpos : 0 < r.mRansacModel.nIterations)
    (hnd1 : 2 ≤ (vInlierFlag.filter (fun a => a ≠ 0)).length)
    (hnd2 : 2 ≤ ((FindInliers rand1 Points1 Points2 R vInlierFlag r).2.1.filter
      (fun a => a ≠ 0)).length)
    (hredo : ∃ t, t < r.mRansacModel.nIterations ∧
      (FindInliers rand2 Points1 Points2 R
          (FindInliers rand1 Points1 Points2 R vInlierFlag r).2.1
          (FindInliers rand1 Points1 Points2 R vInlierFlag
            r).2.2).2.2.mRansacModel.hypotheses.getD t ScaledMat3.zero =
        (FindInliers rand1 Points1 Points2 R vInlierFlag
            r).2.2.mRansacModel.hypotheses.getD
          (argmaxIdx (FindInliers rand1 Points1 Points2 R vInlierFlag
            r).2.2.mRansacModel.nInliers) ScaledMat3.zero) :
    (FindInliers rand1 Points1 Points2 R vInlierFlag r).1 ≤
      (FindInliers rand2 Points1 Points2 R
        (FindInliers rand1 Points1 Points2 R vInlierFlag r).2.1
        (FindInliers rand1 Points1 Points2 R vInlierFlag r).2.2).1 := by
  have hc1 : ¬ (candidateIndices vInlierFlag).length < 2 := by
    rw [candidateIndices_length]
    omega
  rw [findInliers_flags rand1 Points1 Points2 R vInlierFlag r hc1] at hnd2 hredo ⊢
  rw [findInliers_state rand1 Points1 Points2 R vInlierFlag r hc1] at hredo ⊢
  rw [findInliers_val rand1 Points1 Points2 R vInlierFlag r hc1]
  set L1 := loopState rand1 Points1 Points2 R vInlierFlag r with hL1
  have flds1 := loopState_fields rand1 Points1 Points2 R vInlierFlag r
  rw [← hL1] at flds1
  set t1 := argmaxIdx L1.mRansacModel.nInliers with ht1
  set E1 := L1.mRansacModel.hypotheses.getD t1 ScaledMat3.zero with hE1
  set F1 := refineFlags L1.mbUseSampson L1.mnInlierThreshold Points1 Points2 E1
    vInlierFlag with hF1
  have hc2 : ¬ (candidateIndices F1).length < 2 := by
    rw [candidateIndices_length]
    omega
  rw [findInliers_state rand2 Points1 Points2 R F1 L1 hc2] at hredo
  rw [findInliers_val rand2 Points1 Points2 R F1 L1 hc2]
  set L2 := loopState rand2 Points1 Points2 R F1 L1 with hL2
  have flds2 := loopState_fields rand2 Points1 Points2 R F1 L1
  rw [← hL2] at flds2
  obtain ⟨t, htN, hEq⟩ := hredo
  have hNle : r.mRansacModel.nIterations ≤ r.mRansacModel.nInliers.length := by omega
  have hniL1 : L1.mRansacModel.nInliers.length = r.mRansacModel.nIterations := by
    rw [flds1.2.2.2.2.2.1]
    exact hlen
  have ht1N : t1 < r.mRansacModel.nIterations := by
    have hne : L1.mRansacModel.nInliers ≠ [] := by
      intro he
      rw [he] at hniL1
      simp at hniL1
      omega
    have := argmaxIdx_lt_length L1.mRansacModel.nInliers hne
    rw [ht1]
    omega
  have hcount1 : L1.mRansacModel.nInliers.getD t1 0 =
      (countFor r.mbUseSampson r.mnInlierThreshold (candidateIndices vInlierFlag)
        Points1 Points2 E1 : ℤ) := by
    have h0 := loopState_count rand1 Points1 Points2 R vInlierFlag r hNle t1 ht1N
    rw [← hL1, ← hE1] at h0
    exact h0
  have hL1le : L1.mRansacModel.nIterations ≤ L1.mRansacModel.nInliers.length := by
    rw [flds1.2.2.2.1, hniL1]
  have htL1N : t < L1.mRansacModel.nIterations := by
    rw [flds1.2.2.2.1]
    exact htN
  have hcount2 : L2.mRansacModel.nInliers.getD t 0 =
      (countFor r.mbUseSampson r.mnInlierThreshold (candidateIndices vInlierFlag)
        Points1 Points2 E1 : ℤ) := by
    have h0 := loopState_count rand2 Points1 Points2 R F1 L1 hL1le t htL1N
    rw [← hL2] at h0
    rw [hEq, hF1, flds1.1, flds1.2.1] at h0
    rw [candidateIndices_refineFlags, countFor_refined] at h0
    exact h0
  have htL2 : t < L2.mRansacModel.nInliers.length := by
    rw [flds2.2.2.2.2.2.1, hniL1, ← flds1.2.2.2.1]
    exact htL1N
  calc L1.mRansacModel.nInliers.getD t1 0 =
      (countFor r.mbUseSampson r.mnInlierThreshold (candidateIndices vInlierFlag)
        Points1 Points2 E1 : ℤ) := hcount1
    _ = L2.mRansacModel.nInliers.getD t 0 := hcount2.symm
    _ ≤ L2.mRansacModel.nInliers.getD (argmaxIdx L2.mRansacModel.nInliers) 0 :=
      argmaxIdx_is_max _ t htL2

set_option maxRecDepth 400000 in
set_option maxHeartbeats 16000000 in
/-- C9 counterexample: on the seven-point scenario, with every trial of
the first call sampling the pair (0, 1) and every trial of the second
call sampling the pair (1, 2), the first call returns 7 and returns the
flag vector unchanged, yet the second call on that very flag vector
returns 2 — a reduction of 5 counts, far beyond any small numerical
tolerance. -/
theorem findInliers_idempotence_counterexample :
    (FindInliers cexRand1 cexP1 cexP2 cexR cexFlags cexRansac).1 = 7 ∧
    (FindInliers cexRand2 cexP1 cexP2 cexR
        (FindInliers cexRand1 cexP1 cexP2 cexR cexFlags cexRansac).2.1
        (FindInliers cexRand1 cexP1 cexP2 cexR cexFlags cexRansac).2.2).1 = 2 := by
  have hfull : FindInliers cexRand1 cexP1 cexP2 cexR cexFlags cexRansac =
      (7, [1, 1, 1, 1, 1, 1, 1], cexState1) := by
    norm_num [FindInliers, trialStep, CountInliers, SetRansacModel, SetPointSet,
      candidateIndices, argmaxIdx, countFor, errSel, Ransac.errorOf, AlgebraicError,
      AlgebraicErrorScaled, SampsonErrorScaled, ScaledMat3.zero,
      refineFlags, Vec3.dot, Vec3.cross, Mat3.mulVec, Mat3.transpose, skew,
      Mat3.zero, Vec3.zero, Ransac.new, RansacModel.init, cexRand1, cexP1, cexP2,
      cexR, cexFlags, cexRansac, cexState1, List.replicate, List.range_succ,
      List.filter_cons, List.getD_cons_zero, List.getD_cons_succ, List.getD_nil]
  rw [hfull]
  refine ⟨rfl, ?_⟩
  norm_num [FindInliers, trialStep, CountInliers, SetRansacModel, SetPointSet,
    candidateIndices, argmaxIdx, countFor, errSel, Ransac.errorOf, AlgebraicError,
    AlgebraicErrorScaled, SampsonErrorScaled, ScaledMat3.zero,
    refineFlags, Vec3.dot, Vec3.cross, Mat3.mulVec, Mat3.transpose, skew,
    Mat3.zero, Vec3.zero, cexRand2, cexP1, cexP2, cexR, cexState1,
    List.replicate, List.range_succ, List.filter_cons, List.getD_cons_zero,
    List.getD_cons_succ, List.getD_nil]

/-- C9 witness: the smallest consistent one-trial estimator on all-zero
data, where the second call redraws the winning pair and reproduces the
winning hypothesis, so the second call returns at least as many inliers
as the first. -/
theorem findInliers_second_call_bound_witness :
    0 < oneTrialRansac.mRansacModel.nIterations ∧
    (FindInliers cexRand1 [] [] Mat3.zero [1, 1] oneTrialRansac).1 ≤
      (FindInliers cexRand1 [] [] Mat3.zero
        (FindInliers cexRand1 [] [] Mat3.zero [1, 1] oneTrialRansac).2.1
        (FindInliers cexRand1 [] [] Mat3.zero [1, 1] oneTrialRansac).2.2).1 :=
  ⟨by decide,
    findInliers_second_call_bound cexRand1 cexRand1 [] [] Mat3.zero [1, 1]
      oneTrialRansac (by decide) (by decide) (by decide)
      (by simp [FindInliers, trialStep, CountInliers, SetRansacModel, SetPointSet,
        candidateIndices, argmaxIdx, countFor, errSel, Ransac.errorOf,
        AlgebraicError, AlgebraicErrorScaled, SampsonErrorScaled, ScaledMat3.zero,
        refineFlags, Vec3.dot, Vec3.cross, Mat3.mulVec,
        Mat3.transpose, skew, Mat3.zero, Vec3.zero, oneTrialRansac, cexRand1,
        List.range_succ, List.filter_cons, List.getD_cons_zero,
        List.getD_cons_succ, List.getD_nil])
      (⟨0, by decide, by simp [FindInliers, trialStep, CountInliers,
        SetRansacModel, SetPointSet, candidateIndices, argmaxIdx, countFor,
        errSel, Ransac.errorOf, AlgebraicError, AlgebraicErrorScaled,
        SampsonErrorScaled, ScaledMat3.zero, refineFlags, Vec3.dot,
        Vec3.cross, Mat3.mulVec, Mat3.transpose, skew, Mat3.zero, Vec3.zero,
        oneTrialRansac, cexRand1, List.range_succ, List.filter_cons,
        List.getD_cons_zero, List.getD_cons_succ, List.getD_nil]⟩)⟩

end RVIO
